import Mathlib

/-!
Shallow embedding of the native-shell layer of PearTree
(src/src-tauri/src/lib.rs): the file-acquisition command
`pick_tree_file`, the command-toggle entry point `set_menu_item_enabled`,
the static menu construction with its startup disable loops, and the
menu-event forwarder installed by `run`.

OS-boundary behaviour (the native dialog, path resolution, the file
system, the event transport) is passed in explicitly as an environment,
so each run of the Rust code corresponds to one environment value.
-/

namespace PearTree

/-! UTF-8 decoding, as performed by `std::fs::read_to_string` and
`OsStr::to_str`: a byte sequence decodes to a string iff it is valid
UTF-8 (shortest-form encodings, no surrogates, max U+10FFFF). -/

/-- Is a byte a UTF-8 continuation byte (0x80..0xBF)? -/
def isCont (b : Nat) : Bool := decide (0x80 ≤ b ∧ b ≤ 0xBF)

/-- Decode a UTF-8 byte sequence to its list of scalar values, or `none`
if the bytes are not valid UTF-8. -/
def utf8DecodeAux : List Nat → Option (List Nat)
  | [] => some []
  | b1 :: bs =>
    if b1 ≤ 0x7F then
      (utf8DecodeAux bs).map (fun cs => b1 :: cs)
    else if 0xC2 ≤ b1 ∧ b1 ≤ 0xDF then
      match bs with
      | b2 :: bs2 =>
        if isCont b2 then
          (utf8DecodeAux bs2).map (fun cs => ((b1 - 0xC0) * 0x40 + (b2 - 0x80)) :: cs)
        else none
      | [] => none
    else if 0xE0 ≤ b1 ∧ b1 ≤ 0xEF then
      match bs with
      | b2 :: b3 :: bs3 =>
        if ((if b1 = 0xE0 then 0xA0 else 0x80) ≤ b2 ∧
            b2 ≤ (if b1 = 0xED then 0x9F else 0xBF)) ∧ isCont b3 then
          (utf8DecodeAux bs3).map
            (fun cs => ((b1 - 0xE0) * 0x1000 + (b2 - 0x80) * 0x40 + (b3 - 0x80)) :: cs)
        else none
      | _ => none
    else if 0xF0 ≤ b1 ∧ b1 ≤ 0xF4 then
      match bs with
      | b2 :: b3 :: b4 :: bs4 =>
        if ((if b1 = 0xF0 then 0x90 else 0x80) ≤ b2 ∧
            b2 ≤ (if b1 = 0xF4 then 0x8F else 0xBF)) ∧ isCont b3 ∧ isCont b4 then
          (utf8DecodeAux bs4).map
            (fun cs => ((b1 - 0xF0) * 0x40000 + (b2 - 0x80) * 0x1000
                        + (b3 - 0x80) * 0x40 + (b4 - 0x80)) :: cs)
        else none
      | _ => none
    else none

/-- Decode UTF-8 bytes to a Lean string, or `none` if invalid. -/
def utf8DecodeString (bs : List Nat) : Option String :=
  (utf8DecodeAux bs).map (fun cps => String.mk (cps.map Char.ofNat))

/-! The file-acquisition bridge `pick_tree_file`. -/

/-- A resolved filesystem path, abstracted at the OS boundary: all
`pick_tree_file` inspects of a path is `Path::file_name()`, whose result
is an OS string (a byte sequence on Unix), absent when the path has no
base-name component. -/
structure FsPath where
  fileNameBytes : Option (List Nat)
  deriving DecidableEq

/-- A minimal model of the `serde_json::Value`s the command builds. -/
inductive Json where
  | str : String → Json
  | obj : List (String × Json) → Json

/-- The `serde_json::json!` object `\x7b "name": name, "content": content \x7d`
built on the success path of `pick_tree_file`. -/
def loadedJson (name content : String) : Json :=
  Json.obj [("name", Json.str name), ("content", Json.str content)]

/-- State of a `tauri_plugin_dialog` file-dialog builder: the filters
added so far (each a display name with an extension allow-list). -/
structure FileDialogBuilder where
  filters : List (String × List String)
  deriving DecidableEq

/-- The builder starts with no filters (`app.dialog().file()`). -/
def newFileDialog : FileDialogBuilder := ⟨[]⟩

/-- The builder method `add_filter(name, extensions)`. -/
def FileDialogBuilder.add_filter (d : FileDialogBuilder) (nm : String)
    (exts : List String) : FileDialogBuilder :=
  ⟨d.filters ++ [(nm, exts)]⟩

/-- The extension allow-list passed to `add_filter` in `pick_tree_file`. -/
def treeFileExts : List String :=
  ["nex", "nexus", "tre", "tree", "nwk", "newick", "txt"]

/-- The dialog `pick_tree_file` builds before calling
`blocking_pick_file`. -/
def treeFilePickerDialog : FileDialogBuilder :=
  (newFileDialog.add_filter ("Tree files") treeFileExts)

/-- One run's OS-boundary behaviour for `pick_tree_file`:
`blockingPickFile d` is what `blocking_pick_file` on dialog `d` returns —
`none` when the user cancels, otherwise the outcome of
`FilePath::into_path()` with the error already stringified by
`map_err(|e| e.to_string())`; `readBytes p` is the byte content of the
file at `p`, or a stringified I/O error. -/
structure PickEnv where
  blockingPickFile : FileDialogBuilder → Option (Except String FsPath)
  readBytes : FsPath → Except String (List Nat)

/-- The message `std::io::Error` displays when `read_to_string` meets
bytes that are not valid UTF-8. -/
def invalidUtf8Msg : String := "stream did not contain valid UTF-8"

/-- `std::fs::read_to_string(&path).map_err(|e| e.to_string())`: read the
file's bytes, then decode them as UTF-8; either failure becomes a string
error. -/
def read_to_string (env : PickEnv) (p : FsPath) : Except String String :=
  match env.readBytes p with
  | Except.error e => Except.error e
  | Except.ok bytes =>
    match utf8DecodeString bytes with
    | some s => Except.ok s
    | none => Except.error invalidUtf8Msg

/-- The Tauri command `pick_tree_file`: open the native picker filtered
to tree-file extensions; on cancel return `Ok(None)`; otherwise resolve
the path (`?`), compute the display name from the base name with the
fallback `"tree"`, read the file as text (`?`), and return the
name/content JSON object. -/
def pick_tree_file (env : PickEnv) : Except String (Option Json) :=
  match env.blockingPickFile treeFilePickerDialog with
  | none => Except.ok none
  | some fileRes =>
    match fileRes with
    | Except.error e => Except.error e
    | Except.ok path =>
      let name := (Option.bind path.fileNameBytes utf8DecodeString).getD ("tree")
      match read_to_string env path with
      | Except.error e => Except.error e
      | Except.ok content => Except.ok (some (loadedJson name content))

/-! The native application menu built in `run`'s setup closure, and the
command-toggle entry point `set_menu_item_enabled`. -/

/-- A plain `MenuItem` created by `MenuItem::with_id(app, id, label,
enabled, accelerator)`. -/
structure MenuItemState where
  id : String
  label : String
  accelerator : Option String
  enabled : Bool
  deriving DecidableEq

/-- One entry reachable from the menu by id: either a plain `MenuItem`
(for which `as_menuitem()` succeeds) or any other kind — predefined
item, separator, submenu — for which `as_menuitem()` is `None`. -/
inductive MenuEntry where
  | item : MenuItemState → MenuEntry
  | other : String → MenuEntry
  deriving DecidableEq

/-- The id an entry answers to in `Menu::get`. -/
def MenuEntry.entryId : MenuEntry → String
  | MenuEntry.item st => st.id
  | MenuEntry.other i => i

/-- `MenuItemKind::as_menuitem()`: succeeds only on plain menu items. -/
def MenuEntry.as_menuitem : MenuEntry → Option MenuItemState
  | MenuEntry.item st => some st
  | MenuEntry.other _ => none

/-- The application menu, as the collection of entries `Menu::get`
searches, in document order (submenus flattened). -/
structure AppMenu where
  entries : List MenuEntry
  deriving DecidableEq

/-- `Menu::get(id)`: the first entry with the given id, if any. -/
def AppMenu.get (m : AppMenu) (id : String) : Option MenuEntry :=
  m.entries.find? (fun e => e.entryId == id)

/-- `MenuItem::set_enabled` applied through the handle found for `id`:
update the first entry with that id, when it is a plain menu item. -/
def setFirstEnabled : List MenuEntry → String → Bool → List MenuEntry
  | [], _, _ => []
  | e :: rest, id, b =>
    if e.entryId == id then
      (match e with
       | MenuEntry.item st => MenuEntry.item { st with enabled := b }
       | MenuEntry.other i => MenuEntry.other i) :: rest
    else e :: setFirstEnabled rest id b

/-- The Tauri command `set_menu_item_enabled`: look up the app menu, the
entry by id, and its plain-menu-item view; each lookup that fails skips
the update (`if let`), and the `set_enabled` result itself is discarded
(`let _ =`). The function always completes without error; the returned
value is the app's menu state afterwards (`none` when the app has no
menu). -/
def set_menu_item_enabled (appMenu : Option AppMenu) (id : String)
    (enabled : Bool) : Option AppMenu :=
  match appMenu with
  | none => none
  | some menu =>
    match menu.get id with
    | none => some menu
    | some entry =>
      match entry.as_menuitem with
      | none => some menu
      | some _ => some ⟨setFirstEnabled menu.entries id enabled⟩

/-! The concrete menu items created in `run`'s setup closure, each with
`enabled = true` at creation. -/

def open_file : MenuItemState :=
  ⟨"open-file", "Open…", some ("CmdOrCtrl+O"), true⟩

def open_tree : MenuItemState :=
  ⟨"open-tree", "Open Tree…", some ("CmdOrCtrl+Shift+O"), true⟩

def import_annot : MenuItemState :=
  ⟨"import-annot", "Import Annotations…", some ("CmdOrCtrl+Shift+A"), true⟩

def export_tree : MenuItemState :=
  ⟨"export-tree", "Export Tree…", some ("CmdOrCtrl+E"), true⟩

def export_image : MenuItemState :=
  ⟨"export-image", "Export Image…", some ("CmdOrCtrl+Shift+E"), true⟩

def select_all : MenuItemState :=
  ⟨"select-all", "Select All", some ("CmdOrCtrl+A"), true⟩

def view_back : MenuItemState :=
  ⟨"view-back", "Back", some ("CmdOrCtrl+["), true⟩

def view_forward : MenuItemState :=
  ⟨"view-forward", "Forward", some ("CmdOrCtrl+]"), true⟩

def view_drill : MenuItemState :=
  ⟨"view-drill", "Drill into Subtree", some ("CmdOrCtrl+Shift+."), true⟩

def view_climb : MenuItemState :=
  ⟨"view-climb", "Climb Out One Level", some ("CmdOrCtrl+Shift+,"), true⟩

def view_home : MenuItemState :=
  ⟨"view-home", "Root", some ("CmdOrCtrl+\\"), true⟩

def view_zoom_in : MenuItemState :=
  ⟨"view-zoom-in", "Zoom In", some ("CmdOrCtrl+="), true⟩

def view_zoom_out : MenuItemState :=
  ⟨"view-zoom-out", "Zoom Out", some ("CmdOrCtrl+-"), true⟩

def view_fit : MenuItemState :=
  ⟨"view-fit", "Fit All", some ("CmdOrCtrl+0"), true⟩

def view_fit_labels : MenuItemState :=
  ⟨"view-fit-labels", "Fit Labels", some ("CmdOrCtrl+Shift+0"), true⟩

def view_info : MenuItemState :=
  ⟨"view-info", "Get Info...", some ("CmdOrCtrl+I"), true⟩

def tree_rotate : MenuItemState :=
  ⟨"tree-rotate", "Rotate Node", none, true⟩

def tree_rotate_all : MenuItemState :=
  ⟨"tree-rotate-all", "Rotate Clade", none, true⟩

def tree_order_up : MenuItemState :=
  ⟨"tree-order-up", "Order Up", some ("CmdOrCtrl+D"), true⟩

def tree_order_down : MenuItemState :=
  ⟨"tree-order-down", "Order Down", some ("CmdOrCtrl+U"), true⟩

def tree_reroot : MenuItemState :=
  ⟨"tree-reroot", "Re-root Tree", none, true⟩

def tree_midpoint : MenuItemState :=
  ⟨"tree-midpoint", "Midpoint Root", some ("CmdOrCtrl+M"), true⟩

def tree_hide : MenuItemState :=
  ⟨"tree-hide", "Hide Nodes", none, true⟩

def tree_show : MenuItemState :=
  ⟨"tree-show", "Show Nodes", none, true⟩

def tree_paint : MenuItemState :=
  ⟨"tree-paint", "Paint Node", none, true⟩

def tree_clear_colours : MenuItemState :=
  ⟨"tree-clear-colours", "Clear Colours", none, true⟩

def show_help : MenuItemState :=
  ⟨"show-help", "PearTree Help", some ("CmdOrCtrl+?"), true⟩

/-- The menu assembled by `Menu::with_items` from the seven submenus, in
declared order, with predefined items and separators as non-plain
entries. -/
def builtMenu : AppMenu :=
  ⟨[ -- PearTree (app menu)
     MenuEntry.other ("about"), MenuEntry.other ("sep-a1"),
     MenuEntry.other ("services"), MenuEntry.other ("sep-a2"),
     MenuEntry.other ("hide"), MenuEntry.other ("hide-others"),
     MenuEntry.other ("show-all"), MenuEntry.other ("sep-a3"),
     MenuEntry.other ("quit"),
     -- File
     MenuEntry.item open_file, MenuEntry.item open_tree,
     MenuEntry.item import_annot, MenuEntry.other ("sep-f1"),
     MenuEntry.item export_tree, MenuEntry.item export_image,
     MenuEntry.other ("sep-f2"), MenuEntry.other ("close-window"),
     -- Edit
     MenuEntry.other ("sep-e1"), MenuEntry.other ("cut"),
     MenuEntry.other ("copy"), MenuEntry.other ("paste"),
     MenuEntry.item select_all,
     -- View
     MenuEntry.item view_back, MenuEntry.item view_forward,
     MenuEntry.other ("sep-v1"),
     MenuEntry.item view_climb, MenuEntry.item view_drill,
     MenuEntry.item view_home, MenuEntry.other ("sep-v2"),
     MenuEntry.item view_zoom_in, MenuEntry.item view_zoom_out,
     MenuEntry.other ("sep-v3"),
     MenuEntry.item view_fit, MenuEntry.item view_fit_labels,
     MenuEntry.other ("sep-v4"), MenuEntry.item view_info,
     -- Tree
     MenuEntry.item tree_rotate, MenuEntry.item tree_rotate_all,
     MenuEntry.other ("sep-t1"),
     MenuEntry.item tree_order_up, MenuEntry.item tree_order_down,
     MenuEntry.other ("sep-t2"),
     MenuEntry.item tree_reroot, MenuEntry.item tree_midpoint,
     MenuEntry.other ("sep-t3"),
     MenuEntry.item tree_hide, MenuEntry.item tree_show,
     MenuEntry.other ("sep-t4"),
     MenuEntry.item tree_paint, MenuEntry.item tree_clear_colours,
     -- Window
     MenuEntry.other ("minimize"), MenuEntry.other ("maximize"),
     MenuEntry.other ("fullscreen"),
     -- Help
     MenuEntry.item show_help ]⟩

/-- The ids disabled by the three startup loops, in loop order. -/
def startupDisabledIds : List String :=
  ["import-annot", "export-tree", "export-image",
   "view-back", "view-forward", "view-home", "view-info",
   "tree-rotate", "tree-rotate-all",
   "tree-reroot", "tree-midpoint",
   "tree-hide", "tree-show",
   "tree-paint", "tree-clear-colours"]

/-- The menu state after the three startup loops have run
`item.set_enabled(false)` on each listed item handle. -/
def startupMenu : AppMenu :=
  ⟨startupDisabledIds.foldl (fun es id => setFirstEnabled es id false)
    builtMenu.entries⟩

/-- The enabled flag of the plain menu item with the given id in a menu,
when present. -/
def enabledOf (m : AppMenu) (id : String) : Option Bool :=
  (m.get id).bind (fun e => (e.as_menuitem).map (fun st => st.enabled))

/-! The menu-event forwarder installed by `app.on_menu_event`. -/

/-- One emit call: a channel name and a string payload. -/
structure EmitRecord where
  channel : String
  payload : String
  deriving DecidableEq

/-- The observable effects of running the menu-event handler: the emit
calls it makes, those the transport accepted, and any log output. -/
structure HandlerEffects where
  attempts : List EmitRecord
  delivered : List EmitRecord
  logLines : List String
  deriving DecidableEq

/-- The handler closure passed to `on_menu_event`: one
`app.emit("menu-event", event.id().as_ref())` per activation, with the
returned `Result` discarded by `.ok()` — no retry and no logging
whatever the transport does. `transportOk` is whether the transport
accepts the emit. -/
def handleMenuEvent (transportOk : Bool) (eventId : String) : HandlerEffects :=
  let msg : EmitRecord := ⟨"menu-event", eventId⟩
  { attempts := [msg]
  , delivered := if transportOk then [msg] else []
  , logLines := [] }

/-- Run the handler over a sequence of native activations, in order,
accumulating effects. -/
def runActivations (transportOk : Bool) : List String → HandlerEffects
  | [] => ⟨[], [], []⟩
  | e :: rest =>
    let h := handleMenuEvent transportOk e
    let t := runActivations transportOk rest
    ⟨h.attempts ++ t.attempts, h.delivered ++ t.delivered,
     h.logLines ++ t.logLines⟩

/-! Concrete runs used to witness the theorems below. -/

/-- A run in which the user cancels the picker. -/
def envCancelled : PickEnv :=
  ⟨fun _ => none, fun _ => Except.error ("unused")⟩

/-- A path whose base name is `a.txt` (bytes 97 46 116 120 116). -/
def pathAtxt : FsPath := ⟨some [97, 46, 116, 120, 116]⟩

/-- A path with no base-name component. -/
def pathNoName : FsPath := ⟨none⟩

/-- A path whose base-name bytes are not valid UTF-8. -/
def pathBadName : FsPath := ⟨some [0xFF]⟩

/-- A run picking `a.txt` whose file content is the bytes of `hi`. -/
def envPicked : PickEnv :=
  ⟨fun _ => some (Except.ok pathAtxt), fun _ => Except.ok [104, 105]⟩

/-- A run in which resolving the picked path fails. -/
def envResolveFails : PickEnv :=
  ⟨fun _ => some (Except.error ("unsupported uri")),
   fun _ => Except.error ("unused")⟩

/-- A run in which reading the picked file fails. -/
def envReadFails : PickEnv :=
  ⟨fun _ => some (Except.ok pathAtxt),
   fun _ => Except.error ("permission denied")⟩

/-- A run picking a path with no base name, with readable content. -/
def envNoBaseName : PickEnv :=
  ⟨fun _ => some (Except.ok pathNoName), fun _ => Except.ok [104, 105]⟩

/-- A run picking a path whose base name is invalid UTF-8, with
readable content. -/
def envBadBaseName : PickEnv :=
  ⟨fun _ => some (Except.ok pathBadName), fun _ => Except.ok [104, 105]⟩

/-- A run picking `a.txt` whose content byte 0xFF is not valid UTF-8. -/
def envBadUtf8 : PickEnv :=
  ⟨fun _ => some (Except.ok pathAtxt), fun _ => Except.ok [0xFF]⟩

/-- C1: in every run of `pick_tree_file` in which the native picker
yields no file (the user cancels), the command returns `Ok(None)` —
never a loaded value and never an error. -/
theorem pick_tree_file_cancelled (env : PickEnv)
    (h : env.blockingPickFile treeFilePickerDialog = none) :
    pick_tree_file env = Except.ok none ∧
    (∀ j, pick_tree_file env ≠ Except.ok (some j)) ∧
    (∀ e, pick_tree_file env ≠ Except.error e) := by
  simp [pick_tree_file, h]

/-- C1 witness: a concrete cancelled run. -/
theorem pick_tree_file_cancelled_witness :
    pick_tree_file envCancelled = Except.ok none ∧
    (∀ j, pick_tree_file envCancelled ≠ Except.ok (some j)) ∧
    (∀ e, pick_tree_file envCancelled ≠ Except.error e) :=
  pick_tree_file_cancelled envCancelled rfl

/-- C2: in every run in which the user selects a file, the path
resolves, its base-name bytes decode to the string `nm`, and reading
the file succeeds with bytes decoding to `content`, the command returns
the loaded JSON object whose name is exactly the base name and whose
content is exactly the file's decoded text. -/
theorem pick_tree_file_loaded (env : PickEnv) (p : FsPath)
    (nb bytes : List Nat) (nm content : String)
    (hpick : env.blockingPickFile treeFilePickerDialog = some (Except.ok p))
    (hnb : p.fileNameBytes = some nb)
    (hnm : utf8DecodeString nb = some nm)
    (hbytes : env.readBytes p = Except.ok bytes)
    (hcontent : utf8DecodeString bytes = some content) :
    pick_tree_file env = Except.ok (some (loadedJson nm content)) := by
  simp [pick_tree_file, read_to_string, hpick, hnb, hnm, hbytes, hcontent]

/-- C2 witness: picking `a.txt` with content bytes of `hi` loads name
`a.txt` and content `hi`. -/
theorem pick_tree_file_loaded_witness :
    pick_tree_file envPicked
      = Except.ok (some (loadedJson ("a.txt") ("hi"))) :=
  pick_tree_file_loaded envPicked pathAtxt [97, 46, 116, 120, 116]
    [104, 105] ("a.txt") ("hi") rfl rfl (by decide) rfl (by decide)

/-- C3: a failed path resolution or a failed read each surface as the
error with the underlying message verbatim, and every return of
`pick_tree_file` is complete: `Ok(None)`, an error, or a full
name/content object. -/
theorem pick_tree_file_failure_paths (env : PickEnv) :
    (∀ e, env.blockingPickFile treeFilePickerDialog = some (Except.error e) →
      pick_tree_file env = Except.error e) ∧
    (∀ p e, env.blockingPickFile treeFilePickerDialog = some (Except.ok p) →
      read_to_string env p = Except.error e →
      pick_tree_file env = Except.error e) ∧
    (pick_tree_file env = Except.ok none ∨
      (∃ e, pick_tree_file env = Except.error e) ∨
      (∃ n c, pick_tree_file env = Except.ok (some (loadedJson n c)))) := by
  refine ⟨?_, ?_, ?_⟩
  · intro e he
    simp [pick_tree_file, he]
  · intro p e hp hr
    simp [pick_tree_file, hp, hr]
  · cases h : env.blockingPickFile treeFilePickerDialog with
    | none => exact Or.inl (by simp [pick_tree_file, h])
    | some r =>
      cases r with
      | error e => exact Or.inr (Or.inl ⟨e, by simp [pick_tree_file, h]⟩)
      | ok p =>
        cases hr : read_to_string env p with
        | error e => exact Or.inr (Or.inl ⟨e, by simp [pick_tree_file, h, hr]⟩)
        | ok c =>
          exact Or.inr (Or.inr
            ⟨(Option.bind p.fileNameBytes utf8DecodeString).getD ("tree"), c,
             by simp [pick_tree_file, h, hr]⟩)

/-- C3 witness: a failed resolution and a failed read each return the
underlying message verbatim. -/
theorem pick_tree_file_failure_paths_witness :
    pick_tree_file envResolveFails = Except.error ("unsupported uri") ∧
    pick_tree_file envReadFails = Except.error ("permission denied") :=
  ⟨(pick_tree_file_failure_paths envResolveFails).1 ("unsupported uri") rfl,
   (pick_tree_file_failure_paths envReadFails).2.1 pathAtxt
     ("permission denied") rfl rfl⟩

/-- C8: the picker dialog is built with exactly the fixed extension
allow-list; the run consults the OS picker only at that dialog; and no
file-format validation of the content happens — any content that reads
back as text is returned loaded as-is. -/
theorem pick_tree_file_filter_no_validation (env env2 : PickEnv)
    (hsame : env.blockingPickFile treeFilePickerDialog
      = env2.blockingPickFile treeFilePickerDialog)
    (hread : env.readBytes = env2.readBytes) :
    treeFilePickerDialog.filters = [("Tree files", treeFileExts)] ∧
    treeFileExts = ["nex", "nexus", "tre", "tree", "nwk", "newick", "txt"] ∧
    pick_tree_file env = pick_tree_file env2 ∧
    (∀ p bytes content,
      env.blockingPickFile treeFilePickerDialog = some (Except.ok p) →
      env.readBytes p = Except.ok bytes →
      utf8DecodeString bytes = some content →
      ∃ n, pick_tree_file env = Except.ok (some (loadedJson n content))) := by
  refine ⟨rfl, rfl, ?_, ?_⟩
  · simp only [pick_tree_file, read_to_string, hsame, hread]
  · intro p bytes content hp hb hc
    exact ⟨(Option.bind p.fileNameBytes utf8DecodeString).getD ("tree"),
      by simp [pick_tree_file, read_to_string, hp, hb, hc]⟩

/-- C8 witness: the filter list, and a load with unvalidated content
`hi` (not a tree format). -/
theorem pick_tree_file_filter_no_validation_witness :
    treeFilePickerDialog.filters = [("Tree files", treeFileExts)] ∧
    (∃ n, pick_tree_file envPicked
      = Except.ok (some (loadedJson n ("hi")))) :=
  ⟨(pick_tree_file_filter_no_validation envPicked envPicked rfl rfl).1,
   (pick_tree_file_filter_no_validation envPicked envPicked rfl rfl).2.2.2
     pathAtxt [104, 105] ("hi") rfl rfl (by decide)⟩

/-- C9: when the picked path has no base-name component, or its base
name is not valid UTF-8, the command does not fail on that account: it
loads with the fallback name `tree`. -/
theorem pick_tree_file_fallback_name (env : PickEnv) (p : FsPath)
    (bytes : List Nat) (content : String)
    (hpick : env.blockingPickFile treeFilePickerDialog = some (Except.ok p))
    (hname : p.fileNameBytes = none ∨
      ∃ nb, p.fileNameBytes = some nb ∧ utf8DecodeString nb = none)
    (hbytes : env.readBytes p = Except.ok bytes)
    (hcontent : utf8DecodeString bytes = some content) :
    pick_tree_file env = Except.ok (some (loadedJson ("tree") content)) := by
  rcases hname with h | ⟨nb, hnb, hdec⟩
  · simp [pick_tree_file, read_to_string, hpick, h, hbytes, hcontent]
  · simp [pick_tree_file, read_to_string, hpick, hnb, hdec, hbytes, hcontent]

/-- C9 witness: a path with no base name and a path with a non-UTF-8
base name both load under the name `tree`. -/
theorem pick_tree_file_fallback_name_witness :
    pick_tree_file envNoBaseName
      = Except.ok (some (loadedJson ("tree") ("hi"))) ∧
    pick_tree_file envBadBaseName
      = Except.ok (some (loadedJson ("tree") ("hi"))) :=
  ⟨pick_tree_file_fallback_name envNoBaseName pathNoName [104, 105] ("hi")
     rfl (Or.inl rfl) rfl (by decide),
   pick_tree_file_fallback_name envBadBaseName pathBadName [104, 105] ("hi")
     rfl (Or.inr ⟨[0xFF], rfl, by decide⟩) rfl (by decide)⟩

/-- C10: when the selected file's bytes are not valid UTF-8, the command
returns the `Err` outcome with the invalid-UTF-8 message and never a
loaded value: content is only ever returned as decoded text. -/
theorem pick_tree_file_invalid_utf8 (env : PickEnv) (p : FsPath)
    (bytes : List Nat)
    (hpick : env.blockingPickFile treeFilePickerDialog = some (Except.ok p))
    (hbytes : env.readBytes p = Except.ok bytes)
    (hbad : utf8DecodeString bytes = none) :
    pick_tree_file env = Except.error invalidUtf8Msg ∧
    (∀ j, pick_tree_file env ≠ Except.ok j) := by
  have hr : read_to_string env p = Except.error invalidUtf8Msg := by
    simp [read_to_string, hbytes, hbad]
  constructor
  · simp [pick_tree_file, hpick, hr]
  · intro j
    simp [pick_tree_file, hpick, hr]

/-- C10 witness: content byte 0xFF yields the invalid-UTF-8 error. -/
theorem pick_tree_file_invalid_utf8_witness :
    pick_tree_file envBadUtf8 = Except.error invalidUtf8Msg ∧
    (∀ j, pick_tree_file envBadUtf8 ≠ Except.ok j) :=
  pick_tree_file_invalid_utf8 envBadUtf8 pathAtxt [0xFF] rfl rfl (by decide)

/-- C4: with the transport available, every native activation emits
exactly one message, on the channel named `menu-event`, with the
activated id's string as payload, unmodified; a sequence of N
activations yields exactly N messages, in activation order. -/
theorem menu_event_forwarding (events : List String) :
    (runActivations true events).delivered
      = events.map (fun id => EmitRecord.mk ("menu-event") id) ∧
    (runActivations true events).delivered.length = events.length ∧
    (∀ id, (handleMenuEvent true id).delivered
      = [EmitRecord.mk ("menu-event") id]) := by
  have h : ∀ evs : List String, (runActivations true evs).delivered
      = evs.map (fun id => EmitRecord.mk ("menu-event") id) := by
    intro evs
    induction evs with
    | nil => rfl
    | cons e rest ih => simp [runActivations, handleMenuEvent, ih]
  refine ⟨h events, ?_, fun id => rfl⟩
  rw [h events, List.length_map]

/-- C5: at startup, before any context update, the fifteen listed
commands are disabled while open-tree, open-file and select-all are
enabled. -/
theorem startup_menu_states :
    enabledOf startupMenu ("import-annot") = some false ∧
    enabledOf startupMenu ("export-tree") = some false ∧
    enabledOf startupMenu ("export-image") = some false ∧
    enabledOf startupMenu ("view-back") = some false ∧
    enabledOf startupMenu ("view-forward") = some false ∧
    enabledOf startupMenu ("view-home") = some false ∧
    enabledOf startupMenu ("view-info") = some false ∧
    enabledOf startupMenu ("tree-rotate") = some false ∧
    enabledOf startupMenu ("tree-rotate-all") = some false ∧
    enabledOf startupMenu ("tree-reroot") = some false ∧
    enabledOf startupMenu ("tree-midpoint") = some false ∧
    enabledOf startupMenu ("tree-hide") = some false ∧
    enabledOf startupMenu ("tree-show") = some false ∧
    enabledOf startupMenu ("tree-paint") = some false ∧
    enabledOf startupMenu ("tree-clear-colours") = some false ∧
    enabledOf startupMenu ("open-tree") = some true ∧
    enabledOf startupMenu ("open-file") = some true ∧
    enabledOf startupMenu ("select-all") = some true := by
  decide

/-- C6: `set_menu_item_enabled` always completes without failure, and
when the app has no menu, the id matches no entry, or the matched entry
is not a plain menu item, it leaves the menu unchanged. -/
theorem set_menu_item_enabled_total_skip (m : AppMenu) (id : String)
    (b : Bool) :
    set_menu_item_enabled none id b = none ∧
    (m.get id = none → set_menu_item_enabled (some m) id b = some m) ∧
    (∀ e, m.get id = some e → e.as_menuitem = none →
      set_menu_item_enabled (some m) id b = some m) := by
  refine ⟨rfl, ?_, ?_⟩
  · intro h
    simp [set_menu_item_enabled, h]
  · intro e he hn
    simp [set_menu_item_enabled, he, hn]

/-- C6 witness: no menu, an unknown id, and a non-plain entry (the
predefined About item) are each a no-op on the built menu. -/
theorem set_menu_item_enabled_total_skip_witness :
    set_menu_item_enabled none ("open-file") true = none ∧
    set_menu_item_enabled (some builtMenu) ("no-such-id") true
      = some builtMenu ∧
    set_menu_item_enabled (some builtMenu) ("about") false
      = some builtMenu :=
  ⟨(set_menu_item_enabled_total_skip builtMenu ("open-file") true).1,
   (set_menu_item_enabled_total_skip builtMenu ("no-such-id") true).2.1
     (by decide),
   (set_menu_item_enabled_total_skip builtMenu ("about") false).2.2
     (MenuEntry.other ("about")) (by decide) (by decide)⟩

/-- C7 counterexample: in a run where the transport rejects the emit of
an activation of `open-tree`, the event is dropped but nothing is
logged — the handler discards the failed `Result` with `.ok()` — so the
claim that the failure is logged is false. -/
theorem menu_event_drop_not_logged :
    (handleMenuEvent false ("open-tree")).delivered = [] ∧
    ¬((handleMenuEvent false ("open-tree")).logLines ≠ []) :=
  ⟨rfl, fun h => h rfl⟩

/-- C7 amended: when the transport is unavailable every event is
dropped silently — exactly one emit attempt per activation, so delivery
is never retried, with no message delivered and nothing logged. -/
theorem menu_event_drop_silent (events : List String) :
    (runActivations false events).attempts
      = events.map (fun id => EmitRecord.mk ("menu-event") id) ∧
    (runActivations false events).delivered = [] ∧
    (runActivations false events).logLines = [] := by
  induction events with
  | nil => exact ⟨rfl, rfl, rfl⟩
  | cons e rest ih =>
    refine ⟨?_, ?_, ?_⟩ <;>
      simp [runActivations, handleMenuEvent, ih.1, ih.2.1, ih.2.2]

end PearTree
